import Mathlib

/-!
Shallow embedding of the pocketbase-rs client library (src/lib.rs,
src/error.rs, src/records/...), together with proofs about the claims of
its specification.  Pure logic (status-code classification, query-parameter
assembly, the pagination loop, session updates) is translated into Lean
definitions; the network is modelled as an explicit outcome value handed to
each operation; client mutation is modelled by explicit state passing.
-/

/-- A minimal JSON value, standing in for `serde_json::Value` as it is used
by `auth_with_password` (object lookup, `as_str`, `as_object`). -/
inductive Json where
  | null
  | bool (b : Bool)
  | num (n : Int)
  | str (s : String)
  | arr (elems : List Json)
  | obj (fields : List (String × Json))

/-- `serde_json::Value::as_object` (objects have unique keys). -/
def Json.asObject : Json → Option (List (String × Json))
  | .obj fs => some fs
  | _ => none

/-- `serde_json::Value::get(key)` — key lookup on objects, `None` otherwise. -/
def Json.get (j : Json) (key : String) : Option Json :=
  match j with
  | .obj fs => (fs.find? (fun kv => kv.fst == key)).map Prod.snd
  | _ => none

/-- `serde_json::Value::as_str`. -/
def Json.asStr : Json → Option String
  | .str s => some s
  | _ => none

/-- `AuthStoreRecord` from src/records/auth/mod.rs. -/
structure AuthStoreRecord where
  id : String
  collectionId : String
  collectionName : String
  created : String
  updated : String
  email : String
  emailVisibility : Bool
  verified : Bool
deriving Repr, DecidableEq

/-- `AuthStore` from src/records/auth/mod.rs: the client session
(authenticated user record + bearer token). -/
structure AuthStore where
  record : AuthStoreRecord
  token : String
deriving Repr, DecidableEq

/-- The `PocketBase` client state from src/lib.rs (the `reqwest_client`
transport handle carries no observable state of its own and is omitted). -/
structure PocketBase where
  base_url : String
  auth_store : Option AuthStore
deriving Repr, DecidableEq

/-- `str::trim_end_matches('/')` as used by `PocketBase::new`. -/
def trim_end_slashes (s : String) : String :=
  ⟨(s.data.reverse.dropWhile (fun c => c == '/')).reverse⟩

/-- `PocketBase::new` (src/lib.rs): trims trailing slashes, starts with no
session. -/
def pocketbase_new (base_url : String) : PocketBase :=
  { base_url := trim_end_slashes base_url, auth_store := none }

/-- `PocketBase::update_auth_store` (src/lib.rs line 406): wholesale
replacement of the session. -/
def update_auth_store (pb : PocketBase) (new_auth_store : AuthStore) : PocketBase :=
  { pb with auth_store := some new_auth_store }

/-- `PocketBase::token` (src/lib.rs). -/
def PocketBase.tokenOf (pb : PocketBase) : Option String :=
  pb.auth_store.map (fun st => st.token)

/-- Body attached to an outgoing request (empty, JSON, or multipart form). -/
inductive RequestBody where
  | empty
  | json (payload : Json)
  | form (fields : List (String × String))

/-- A `reqwest::RequestBuilder`, reduced to its observable request parts. -/
structure RequestBuilder where
  method : String
  url : String
  headers : List (String × String)
  query : List (String × String)
  body : RequestBody

/-- `RequestBuilder::bearer_auth`: attaches the Authorization header. -/
def bearer_auth (rb : RequestBuilder) (token : String) : RequestBuilder :=
  { rb with headers := rb.headers ++ [("Authorization", "Bearer " ++ token)] }

/-- `PocketBase::with_authorization_token` (src/lib.rs lines 423-432). -/
def with_authorization_token (pb : PocketBase) (request_builder : RequestBuilder) :
    RequestBuilder :=
  match pb.auth_store with
  | some auth_store => bearer_auth request_builder auth_store.token
  | none => request_builder

/-- `PocketBase::request_get` (src/lib.rs lines 517-532). -/
def request_get (pb : PocketBase) (endpoint : String)
    (params : Option (List (String × String))) : RequestBuilder :=
  with_authorization_token pb
    { method := "GET", url := endpoint,
      headers := [("Accept", "application/json")],
      query := params.getD [], body := .empty }

/-- `PocketBase::request_post` (src/lib.rs lines 444-447). -/
def request_post (pb : PocketBase) (endpoint : String) : RequestBuilder :=
  with_authorization_token pb
    { method := "POST", url := endpoint, headers := [], query := [], body := .empty }

/-- `PocketBase::request_post_json` (src/lib.rs lines 480-487). -/
def request_post_json (pb : PocketBase) (endpoint : String) (payload : Json) :
    RequestBuilder :=
  with_authorization_token pb
    { method := "POST", url := endpoint, headers := [], query := [],
      body := .json payload }

/-- `PocketBase::request_patch_json` (src/lib.rs lines 460-467). -/
def request_patch_json (pb : PocketBase) (endpoint : String) (payload : Json) :
    RequestBuilder :=
  with_authorization_token pb
    { method := "PATCH", url := endpoint, headers := [], query := [],
      body := .json payload }

/-- `PocketBase::request_post_form` (src/lib.rs lines 500-503). -/
def request_post_form (pb : PocketBase) (endpoint : String)
    (fields : List (String × String)) : RequestBuilder :=
  with_authorization_token pb
    { method := "POST", url := endpoint, headers := [], query := [],
      body := .form fields }

/-- `PocketBase::request_delete` (src/lib.rs lines 552-556). -/
def request_delete (pb : PocketBase) (endpoint : String) : RequestBuilder :=
  with_authorization_token pb
    { method := "DELETE", url := endpoint, headers := [], query := [], body := .empty }

/-- The `Debug` implementation for `PocketBase` (src/lib.rs lines 233-244):
the auth store is rendered as a redacted marker when present. -/
def pocketbase_debug_fmt (pb : PocketBase) : String :=
  "PocketBase \x7b base_url: \x22" ++ pb.base_url ++ "\x22, auth_store: "
    ++ (match pb.auth_store with
        | some _ => "Some(\x22***REDACTED***\x22)"
        | none => "None")
    ++ ", reqwest_client: \x22Client\x22 \x7d"

/-- `RequestError` from src/error.rs. -/
inductive RequestError where
  | badRequest (msg : String)
  | unauthorized
  | forbidden
  | notFound
  | parseError (msg : String)
  | unreachable
  | tooManyRequests
  | unhandled
deriving Repr, DecidableEq

/-- `RecordList<T>` from src/lib.rs: the paginated list envelope. -/
structure RecordList (T : Type) where
  page : Int
  perPage : Int
  totalItems : Int
  totalPages : Int
  items : List T
deriving Repr, DecidableEq

/-- Outcome of one HTTP exchange for an operation returning a single parsed
value: success with parsed body, success status but unparsable body, an HTTP
error status surfaced by `error_for_status`, or a send error carrying an
optional status. -/
inductive GetOutcome (T : Type) where
  | ok (record : T)
  | parseFail (msg : String)
  | httpErr (status : Nat)
  | sendErr (status : Option Nat)
deriving Repr, DecidableEq

/-- Outcome of one list-endpoint HTTP exchange. The send-error case also
records whether `reqwest::Error::is_timeout() || is_connect()` held, which
only `get_full_list` inspects. -/
inductive PageOutcome (T : Type) where
  | ok (body : RecordList T)
  | parseFail (msg : String)
  | httpErr (status : Nat)
  | sendErr (isTimeoutOrConnect : Bool) (status : Option Nat)
deriving Repr, DecidableEq

/-- Whether a `PageOutcome` is a successfully parsed page. -/
def PageOutcome.isOk {T : Type} : PageOutcome T → Bool
  | .ok _ => true
  | _ => false

/-- Status-code classification of `CollectionGetOneBuilder::call`
(src/records/crud/get_one.rs lines 83-95): 403, 404, 429, catch-all. -/
def get_one_status_to_error (status : Option Nat) : RequestError :=
  if status = some 403 then .forbidden
  else if status = some 404 then .notFound
  else if status = some 429 then .tooManyRequests
  else .unhandled

/-- Status-code classification of `CollectionGetListBuilder::call`
(src/records/crud/get_list.rs lines 161-173): 403, 404, 429, catch-all. -/
def get_list_status_to_error (status : Option Nat) : RequestError :=
  if status = some 403 then .forbidden
  else if status = some 404 then .notFound
  else if status = some 429 then .tooManyRequests
  else .unhandled

/-- Status-code classification of `CollectionGetFullListBuilder::call`
(src/records/crud/get_full_list.rs lines 201-216): 403, 404, 401,
catch-all — there is no 429 arm in this file. -/
def get_full_list_status_to_error (status : Option Nat) : RequestError :=
  if status = some 403 then .forbidden
  else if status = some 404 then .notFound
  else if status = some 401 then .unauthorized
  else .unhandled

/-- Status-code classification of `CollectionGetFirstListItemBuilder::call`
(src/records/crud/get_first_list_item.rs lines 171-181): 403, 404,
catch-all — there is no 429 arm in this file. -/
def get_first_list_item_status_to_error (status : Option Nat) : RequestError :=
  if status = some 403 then .forbidden
  else if status = some 404 then .notFound
  else .unhandled

/-- `CollectionGetOneBuilder::call` (src/records/crud/get_one.rs),
response handling given the outcome of its single HTTP exchange. -/
def get_one_call {T : Type} (outcome : GetOutcome T) : Except RequestError T :=
  match outcome with
  | .ok record => .ok record
  | .parseFail msg => .error (.parseError msg)
  | .httpErr s => .error (get_one_status_to_error (some s))
  | .sendErr s => .error (get_one_status_to_error s)

/-- `CollectionGetListBuilder::call` (src/records/crud/get_list.rs),
response handling given the outcome of its single HTTP exchange. -/
def get_list_call {T : Type} (outcome : PageOutcome T) :
    Except RequestError (RecordList T) :=
  match outcome with
  | .ok body => .ok body
  | .parseFail msg => .error (.parseError msg)
  | .httpErr s => .error (get_list_status_to_error (some s))
  | .sendErr _ s => .error (get_list_status_to_error s)

/-- An optional query parameter pushed by an `if let Some(x)` block. -/
def opt_param (key : String) : Option String → List (String × String)
  | some v => [(key, v)]
  | none => []

/-- The query parameters sent by `CollectionGetFirstListItemBuilder::call`
(src/records/crud/get_first_list_item.rs lines 147-160): `page=1`,
`perPage=1`, `skipTotal=true` always forced first, then the optional
sort/filter/expand values. -/
def get_first_list_item_query (sort filter expand : Option String) :
    List (String × String) :=
  [("page", "1"), ("perPage", "1"), ("skipTotal", "true")]
    ++ opt_param "sort" sort ++ opt_param "filter" filter
    ++ opt_param "expand" expand

/-- `CollectionGetFirstListItemBuilder::call`
(src/records/crud/get_first_list_item.rs lines 141-195): sends the forced
query, then returns the first returned item, or a parse error on an empty
items list. The server is modelled as a function from the sent query
parameters to the exchange outcome. -/
def get_first_list_item_call {T : Type} (sort filter expand : Option String)
    (server : List (String × String) → PageOutcome T) : Except RequestError T :=
  match server (get_first_list_item_query sort filter expand) with
  | .ok body =>
    match body.items with
    | [] => .error (.parseError "No record found.")
    | record :: _ => .ok record
  | .parseFail msg => .error (.parseError msg)
  | .httpErr s => .error (get_first_list_item_status_to_error (some s))
  | .sendErr _ s => .error (get_first_list_item_status_to_error s)

/-- `CollectionGetFullListBuilder::batch_size` (src/records/crud/
get_full_list.rs lines 85-88): `size.min(500)`, the argument being a u16. -/
def batch_size_set (size : Nat) : Nat :=
  min size 500

/-- The pagination loop of `CollectionGetFullListBuilder::call`
(src/records/crud/get_full_list.rs lines 162-241), with an explicit fuel
bound (`none` means the fuel ran out before the source loop returned; the
source loop has no bound of its own). The server maps each requested page
number to the outcome of that exchange; the returned trace lists the page
numbers requested, in order. -/
def get_full_list_loop {T : Type} (batch_size : Nat)
    (server : Nat → PageOutcome T) :
    Nat → Nat → List T → List Nat →
    Option (List Nat × Except RequestError (List T))
  | 0, _, _, _ => none
  | fuel + 1, page, all_records, trace =>
    match server page with
    | .ok records_page =>
      if records_page.items.length < batch_size then
        some (trace ++ [page], .ok (all_records ++ records_page.items))
      else
        get_full_list_loop batch_size server fuel (page + 1)
          (all_records ++ records_page.items) (trace ++ [page])
    | .parseFail msg => some (trace ++ [page], .error (.parseError msg))
    | .httpErr s =>
      some (trace ++ [page], .error (get_full_list_status_to_error (some s)))
    | .sendErr toc s =>
      some (trace ++ [page],
        .error (if toc then .unreachable else get_full_list_status_to_error s))

/-- The items a list-contract-abiding server holding exactly `records`
returns for the request `page=p&perPage=B`: the `p`-th chunk of `B`
records. -/
def contract_page {T : Type} (records : List T) (B p : Nat) : List T :=
  (records.drop ((p - 1) * B)).take B

/-- A server that answers every list request per the list contract for a
collection holding exactly `records`. -/
def serves_contract {T : Type} (server : Nat → PageOutcome T)
    (records : List T) (B : Nat) : Prop :=
  ∀ p, 1 ≤ p → ∃ body : RecordList T,
    server p = .ok body ∧ body.items = contract_page records B p

/-- Number of items a server returns on page `p` (0 for non-ok outcomes). -/
def page_items_len {T : Type} (server : Nat → PageOutcome T) (p : Nat) : Nat :=
  match server p with
  | .ok body => body.items.length
  | _ => 0

/-- `DeleteError` from src/records/crud/delete.rs. -/
inductive DeleteError where
  | badRequest
  | forbidden
  | notFound
  | unreachable (msg : String)
  | unexpectedResponse (msg : String)
deriving Repr, DecidableEq

/-- Outcome of the DELETE exchange in `Collection::delete`: an HTTP response
with some status, or one of the send-error shapes the code distinguishes. -/
inductive DeleteOutcome where
  | response (status : Nat)
  | timeoutErr
  | connectErr
  | otherSendErr (msg : String)
deriving Repr, DecidableEq

/-- The response handling of `Collection::delete`
(src/records/crud/delete.rs lines 60-84): 204 or 200 succeed; 400, 403, 404
map to their variants; anything else is unexpected; send errors are
unreachable. -/
def delete_classify (name record_id : String) (outcome : DeleteOutcome) :
    Except DeleteError Unit :=
  match outcome with
  | .response status =>
    if status = 204 ∨ status = 200 then .ok ()
    else if status = 400 then .error .badRequest
    else if status = 403 then .error .forbidden
    else if status = 404 then .error .notFound
    else .error (.unexpectedResponse
      ("Status: " ++ toString status ++ ", Collection: " ++ name
        ++ ", Record: " ++ record_id))
  | .timeoutErr => .error (.unreachable "Request timed out")
  | .connectErr => .error (.unreachable "Failed to connect to server")
  | .otherSendErr msg => .error (.unreachable msg)

/-- `Collection::delete` (src/records/crud/delete.rs lines 48-85). The
second component counts the network calls issued: an empty record id
short-circuits before any request is sent. -/
def delete (pb : PocketBase) (name record_id : String)
    (transport : DeleteOutcome) : Except DeleteError Unit × Nat :=
  if record_id.isEmpty then (.error .badRequest, 0)
  else (delete_classify name record_id transport, 1)

/-- `ErrorResponse` from src/lib.rs lines 180-188. -/
structure ErrorResponse where
  code : Nat
  message : String
  data : Option Json

/-- `AuthenticationError` from src/records/auth/auth_with_password.rs
(the `HttpError` payload, a `reqwest::Error`, is dropped). -/
inductive AuthenticationError where
  | invalidCredentials
  | emptyField (identity : Bool) (password : Bool)
  | identityMustBeEmail
  | httpError
  | unexpectedResponse
  | missingCollection
deriving Repr, DecidableEq

/-- The 400-body classification of `Collection::auth_with_password`
(src/records/auth/auth_with_password.rs lines 163-229): empty `data` map
means invalid credentials; otherwise inspect `data.identity.code`, with the
fall-through returning invalid credentials. -/
def classify_auth_bad_request (error_response : ErrorResponse) :
    AuthenticationError :=
  match error_response.data with
  | some data =>
    if (data.asObject.map List.isEmpty).getD false then
      .invalidCredentials
    else
      let identity_error :=
        (data.get "identity").bind (fun v => (v.get "code").bind Json.asStr)
      match identity_error with
      | some code =>
        if code = "validation_is_email" then .identityMustBeEmail
        else if code = "validation_required" then
          .emptyField true (data.get "password").isSome
        else .invalidCredentials
      | none => .emptyField false (data.get "password").isSome
  | none => .invalidCredentials

/-- `reqwest::StatusCode::is_success`: 200..=299. -/
def status_is_success (status : Nat) : Bool :=
  decide (200 ≤ status) && decide (status ≤ 299)

/-- One HTTP response to an auth-family POST, with the results of the two
body parses the code may attempt: as an `AuthStore` (success path) and as an
`ErrorResponse` (400 path). `none` means that parse would fail. -/
structure AuthHttpResponse where
  status : Nat
  authBody : Option AuthStore
  errorBody : Option ErrorResponse

/-- `Collection::auth_with_password`
(src/records/auth/auth_with_password.rs lines 129-233), as a state
transformer on the client. `none` stands for a failed send (`?` on `send()`
maps it to `HttpError`); a success-status body that fails to parse as
`AuthStore` likewise becomes `HttpError`; a 400 body that fails to parse as
`ErrorResponse` is replaced by the synthetic generic response. -/
def auth_with_password (pb : PocketBase) (resp : Option AuthHttpResponse) :
    Except AuthenticationError AuthStore × PocketBase :=
  match resp with
  | none => (.error .httpError, pb)
  | some r =>
    if status_is_success r.status then
      match r.authBody with
      | some auth_store => (.ok auth_store, update_auth_store pb auth_store)
      | none => (.error .httpError, pb)
    else if r.status = 400 then
      let error_response := r.errorBody.getD
        { code := 400, message := "Unknown error", data := none }
      (.error (classify_auth_bad_request error_response), pb)
    else
      (.error .unexpectedResponse, pb)

/-- `Collection::auth_refresh` (src/records/auth/auth_refresh.rs lines
44-73), as a state transformer on the client: only an exact 200 with a
parsable `AuthStore` body succeeds and replaces the session. -/
def auth_refresh (pb : PocketBase) (resp : Option AuthHttpResponse) :
    Except RequestError AuthStore × PocketBase :=
  match resp with
  | none => (.error .unhandled, pb)
  | some r =>
    if r.status = 200 then
      match r.authBody with
      | some auth_store => (.ok auth_store, update_auth_store pb auth_store)
      | none => (.error .unhandled, pb)
    else if r.status = 401 then (.error .unauthorized, pb)
    else if r.status = 403 then (.error .forbidden, pb)
    else if r.status = 404 then (.error .notFound, pb)
    else (.error .unhandled, pb)

/-- `ImpersonateError` from src/records/auth/impersonate.rs. -/
inductive ImpersonateError where
  | badRequest
  | unauthorized
  | forbidden
  | notFound
  | unreachable (msg : String)
  | unexpectedResponse (msg : String)
deriving Repr, DecidableEq

/-- One HTTP response to the impersonate POST, with the result of parsing
its body as an `AuthStore`. -/
structure ImpersonateResponse where
  status : Nat
  authBody : Option AuthStore

/-- The result computed by `CollectionImpersonateBuilder::call`
(src/records/auth/impersonate.rs lines 114-160): on 200 with a parsable
body, a brand-new client built by `PocketBase::new` on the caller's base
URL, populated with the impersonated session. The send outcome is an
`Except` whose error is the transport error message. -/
def impersonate_result (pb : PocketBase)
    (resp : Except String ImpersonateResponse) :
    Except ImpersonateError PocketBase :=
  match resp with
  | .error msg => .error (.unreachable msg)
  | .ok r =>
    if r.status = 200 then
      match r.authBody with
      | some auth_store =>
        .ok (update_auth_store (pocketbase_new pb.base_url) auth_store)
      | none => .error (.unexpectedResponse
          "Couldn't parse API response into Auth Data")
    else if r.status = 400 then .error .badRequest
    else if r.status = 401 then .error .unauthorized
    else if r.status = 403 then .error .forbidden
    else if r.status = 404 then .error .notFound
    else .error (.unexpectedResponse (toString r.status))

/-- `CollectionImpersonateBuilder::call` threading the caller's state: the
builder holds `&'a PocketBase`, an immutable borrow, so the caller's client
is returned unchanged alongside the result. -/
def impersonate_call (pb : PocketBase)
    (resp : Except String ImpersonateResponse) :
    Except ImpersonateError PocketBase × PocketBase :=
  (impersonate_result pb resp, pb)

/-- C8: for every request built by a client whose session is absent, no
Authorization header is attached — `with_authorization_token` is the
identity on the request when no session exists, and none of the verb
request builders emit an Authorization header. -/
theorem no_session_no_authorization_header
    (pb : PocketBase) (rb : RequestBuilder) (url : String)
    (params : Option (List (String × String))) (payload : Json)
    (fields : List (String × String)) (h : pb.auth_store = none) :
    with_authorization_token pb rb = rb ∧
    (∀ kv ∈ (request_get pb url params).headers, kv.1 ≠ "Authorization") ∧
    (∀ kv ∈ (request_post pb url).headers, kv.1 ≠ "Authorization") ∧
    (∀ kv ∈ (request_post_json pb url payload).headers, kv.1 ≠ "Authorization") ∧
    (∀ kv ∈ (request_patch_json pb url payload).headers, kv.1 ≠ "Authorization") ∧
    (∀ kv ∈ (request_post_form pb url fields).headers, kv.1 ≠ "Authorization") ∧
    (∀ kv ∈ (request_delete pb url).headers, kv.1 ≠ "Authorization") := by
  have hid : ∀ rb' : RequestBuilder, with_authorization_token pb rb' = rb' := by
    intro rb'
    simp [with_authorization_token, h]
  refine ⟨hid rb, ?_, ?_, ?_, ?_, ?_, ?_⟩ <;>
    simp [request_get, request_post, request_post_json, request_patch_json,
      request_post_form, request_delete, hid]

/-- C8 witness: a fresh unauthenticated client attaches nothing to a GET
request builder. -/
theorem no_session_no_authorization_header_witness :
    with_authorization_token { base_url := "http://localhost:8090", auth_store := none }
        { method := "GET", url := "http://localhost:8090/api/collections/articles/records",
          headers := [("Accept", "application/json")], query := [], body := .empty } =
      { method := "GET", url := "http://localhost:8090/api/collections/articles/records",
        headers := [("Accept", "application/json")], query := [], body := .empty } :=
  (no_session_no_authorization_header
    { base_url := "http://localhost:8090", auth_store := none }
    { method := "GET", url := "http://localhost:8090/api/collections/articles/records",
      headers := [("Accept", "application/json")], query := [], body := .empty }
    "u" none .null [] rfl).1

/-- C10: Debug output of the client is identical for any two clients with
the same base URL and the same session presence, whatever their token or
user record — the auth store renders as a redacted marker when present and
`None` when absent, so no token value flows into Debug output. -/
theorem debug_output_redacts_session
    (c1 c2 : PocketBase) (hurl : c1.base_url = c2.base_url)
    (hsome : c1.auth_store.isSome = c2.auth_store.isSome) :
    pocketbase_debug_fmt c1 = pocketbase_debug_fmt c2 := by
  unfold pocketbase_debug_fmt
  rw [hurl]
  cases h1 : c1.auth_store <;> cases h2 : c2.auth_store <;>
    simp [h1, h2] at hsome ⊢

/-- C10 witness: two clients sharing a base URL but holding different
tokens and user records print identically. -/
theorem debug_output_redacts_session_witness :
    pocketbase_debug_fmt
        { base_url := "http://localhost:8090",
          auth_store := some ⟨⟨"id1", "c1", "users", "t1", "t2", "a@b.c", false, true⟩,
            "secret-token-one"⟩ } =
      pocketbase_debug_fmt
        { base_url := "http://localhost:8090",
          auth_store := some ⟨⟨"id2", "c2", "users", "t3", "t4", "x@y.z", true, false⟩,
            "another-token"⟩ } :=
  debug_output_redacts_session _ _ rfl rfl

/-- C5: delete with an empty record id returns the bad-request error and
issues no network call; with a non-empty id exactly one request is issued
and the call succeeds exactly when the response status is 200 or 204. -/
theorem delete_empty_id_short_circuits
    (pb : PocketBase) (name record_id : String) (transport : DeleteOutcome) :
    (record_id = "" →
      delete pb name record_id transport = (.error DeleteError.badRequest, 0)) ∧
    (record_id ≠ "" →
      (delete pb name record_id transport).2 = 1 ∧
      ((delete pb name record_id transport).1 = .ok () ↔
        transport = .response 200 ∨ transport = .response 204)) := by
  constructor
  · intro hempty
    subst hempty
    rfl
  · intro hne
    have hne' : record_id.isEmpty = false := by
      cases hiso : record_id.isEmpty
      · rfl
      · exact absurd ((String.isEmpty_iff record_id).mp hiso) hne
    constructor
    · simp [delete, hne']
    · simp only [delete, hne', Bool.false_eq_true, if_false]
      constructor
      · intro hok
        cases transport with
        | response status =>
          simp only [delete_classify] at hok
          split at hok
          · rename_i hs
            rcases hs with hs | hs
            · exact Or.inr (by rw [hs])
            · exact Or.inl (by rw [hs])
          · split at hok <;> first | exact absurd hok (by simp) |
              (split at hok <;> first | exact absurd hok (by simp) |
                (split at hok <;> exact absurd hok (by simp)))
        | timeoutErr => exact absurd hok (by simp [delete_classify])
        | connectErr => exact absurd hok (by simp [delete_classify])
        | otherSendErr msg => exact absurd hok (by simp [delete_classify])
      · rintro (rfl | rfl) <;> rfl

/-- C5 witness: concrete runs of delete with an empty and a non-empty id. -/
theorem delete_empty_id_short_circuits_witness :
    delete { base_url := "http://x", auth_store := none } "articles" ""
        (.response 200) = (.error DeleteError.badRequest, 0) ∧
    ((delete { base_url := "http://x", auth_store := none } "articles" "abc"
        (.response 204)).1 = .ok () ↔
      DeleteOutcome.response 204 = .response 200 ∨
      DeleteOutcome.response 204 = .response 204) :=
  ⟨(delete_empty_id_short_circuits _ "articles" "" (.response 200)).1 rfl,
   ((delete_empty_id_short_circuits { base_url := "http://x", auth_store := none }
      "articles" "abc" (.response 204)).2 (by decide)).2⟩

/-- C3: `auth_with_password` classifies a 400 body by its `data` map — an
empty map yields the generic invalid-credentials error, an `identity` entry
with code `validation_is_email` yields the identity-must-be-email error,
and `identity`/`password` entries both coded `validation_required` yield
the empty-field error with both flags true. -/
theorem auth_with_password_400_classification
    (pb : PocketBase) (msg : String) :
    (auth_with_password pb (some
        ⟨400, none, some ⟨400, msg, some (Json.obj [])⟩⟩)).1
      = .error .invalidCredentials ∧
    (auth_with_password pb (some
        ⟨400, none, some ⟨400, msg, some (Json.obj
          [("identity", Json.obj
            [("code", Json.str "validation_is_email"),
             ("message", Json.str "Must be a valid email address.")])])⟩⟩)).1
      = .error .identityMustBeEmail ∧
    (auth_with_password pb (some
        ⟨400, none, some ⟨400, msg, some (Json.obj
          [("identity", Json.obj
            [("code", Json.str "validation_required"),
             ("message", Json.str "Cannot be blank.")]),
           ("password", Json.obj
            [("code", Json.str "validation_required"),
             ("message", Json.str "Cannot be blank.")])])⟩⟩)).1
      = .error (.emptyField true true) :=
  ⟨rfl, rfl, rfl⟩

/-- C2 counterexample: a 429 response to `get_full_list` or to
`get_first_list_item` is mapped to the unhandled variant, not to
too-many-requests — those two call sites have no 429 arm. -/
theorem list_get_429_claim_counterexample :
    get_full_list_loop 500 (fun _ => (PageOutcome.httpErr 429 : PageOutcome Nat))
        1 1 [] [] = some ([1], .error RequestError.unhandled) ∧
    get_first_list_item_call none none none
        (fun _ => (PageOutcome.httpErr 429 : PageOutcome Nat))
      = .error RequestError.unhandled ∧
    RequestError.unhandled ≠ RequestError.tooManyRequests :=
  ⟨rfl, rfl, by decide⟩

/-- C2 amended: only `get_one` and `get_list` map an HTTP 429 response to
the too-many-requests variant; `get_full_list` and `get_first_list_item`
map 429 to the unhandled variant. -/
theorem list_get_429_mapping :
    get_one_status_to_error (some 429) = .tooManyRequests ∧
    get_list_status_to_error (some 429) = .tooManyRequests ∧
    get_one_call (GetOutcome.httpErr 429 : GetOutcome Nat)
      = .error RequestError.tooManyRequests ∧
    get_list_call (PageOutcome.httpErr 429 : PageOutcome Nat)
      = .error RequestError.tooManyRequests ∧
    get_full_list_status_to_error (some 429) = .unhandled ∧
    get_first_list_item_status_to_error (some 429) = .unhandled :=
  ⟨rfl, rfl, rfl, rfl, rfl, rfl⟩

/-- Every entry produced by an optional-parameter push carries its key. -/
theorem opt_param_key (key : String) (o : Option String) :
    ∀ kv ∈ opt_param key o, kv.1 = key := by
  intro kv hkv
  cases o with
  | none => simp [opt_param] at hkv
  | some v =>
    simp only [opt_param, List.mem_singleton] at hkv
    rw [hkv]

/-- C4: `get_first_list_item` always sends the forced query parameters
`page=1`, `perPage=1`, `skipTotal=true` first, every further parameter is
one of sort/filter/expand, and on a successfully parsed response it returns
the first item of the returned list, or a parse error when the list is
empty. -/
theorem get_first_list_item_forces_single_page
    (T : Type) (sort filter expand : Option String)
    (server : List (String × String) → PageOutcome T) :
    (get_first_list_item_query sort filter expand).take 3
        = [("page", "1"), ("perPage", "1"), ("skipTotal", "true")] ∧
    (∀ kv ∈ (get_first_list_item_query sort filter expand).drop 3,
      kv.1 = "sort" ∨ kv.1 = "filter" ∨ kv.1 = "expand") ∧
    (∀ body : RecordList T,
      server (get_first_list_item_query sort filter expand) = .ok body →
      (body.items = [] →
        get_first_list_item_call sort filter expand server
          = .error (.parseError "No record found.")) ∧
      (∀ x rest, body.items = x :: rest →
        get_first_list_item_call sort filter expand server = .ok x)) := by
  refine ⟨rfl, ?_, ?_⟩
  · intro kv hkv
    have hdrop : (get_first_list_item_query sort filter expand).drop 3
        = opt_param "sort" sort ++ opt_param "filter" filter
            ++ opt_param "expand" expand := rfl
    rw [hdrop] at hkv
    rcases List.mem_append.mp hkv with h | h
    · rcases List.mem_append.mp h with h' | h'
      · exact Or.inl (opt_param_key "sort" sort kv h')
      · exact Or.inr (Or.inl (opt_param_key "filter" filter kv h'))
    · exact Or.inr (Or.inr (opt_param_key "expand" expand kv h))
  · intro body hbody
    constructor
    · intro hnil
      simp [get_first_list_item_call, hbody, hnil]
    · intro x rest hcons
      simp [get_first_list_item_call, hbody, hcons]

/-- C4 witness: with no optional parameters and a server returning one
item, the call returns that item. -/
theorem get_first_list_item_forces_single_page_witness :
    get_first_list_item_call none none none
        (fun _ => PageOutcome.ok ⟨1, 1, -1, -1, [42]⟩) = .ok 42 :=
  ((get_first_list_item_forces_single_page Nat none none none
      (fun _ => PageOutcome.ok ⟨1, 1, -1, -1, [42]⟩)).2.2
    ⟨1, 1, -1, -1, [42]⟩ rfl).2 42 [] rfl

/-- C6: a successful `auth_with_password` or `auth_refresh` replaces the
client session wholesale with the full parsed response body, so the stored
token is the response token and subsequent requests carry it as a bearer
Authorization header; any failed outcome leaves the session unchanged. -/
theorem auth_success_replaces_session
    (pb : PocketBase) (r : AuthHttpResponse) (store : AuthStore)
    (rb : RequestBuilder) :
    (status_is_success r.status = true → r.authBody = some store →
      auth_with_password pb (some r) = (.ok store, update_auth_store pb store) ∧
      (update_auth_store pb store).auth_store = some store ∧
      (update_auth_store pb store).tokenOf = some store.token ∧
      ("Authorization", "Bearer " ++ store.token)
        ∈ (with_authorization_token (update_auth_store pb store) rb).headers) ∧
    (∀ (resp : Option AuthHttpResponse) (e : AuthenticationError),
      (auth_with_password pb resp).1 = .error e →
      (auth_with_password pb resp).2 = pb) ∧
    (r.status = 200 → r.authBody = some store →
      auth_refresh pb (some r) = (.ok store, update_auth_store pb store)) ∧
    (∀ (resp : Option AuthHttpResponse) (e : RequestError),
      (auth_refresh pb resp).1 = .error e →
      (auth_refresh pb resp).2 = pb) := by
  refine ⟨?_, ?_, ?_, ?_⟩
  · intro hs hb
    refine ⟨?_, rfl, rfl, ?_⟩
    · simp [auth_with_password, hs, hb]
    · simp [with_authorization_token, update_auth_store, bearer_auth]
  · intro resp e herr
    cases resp with
    | none => rfl
    | some r' =>
      by_cases hs : status_is_success r'.status = true
      · cases hb' : r'.authBody with
        | some st =>
          have hok : auth_with_password pb (some r')
              = (.ok st, update_auth_store pb st) := by
            simp [auth_with_password, hs, hb']
          rw [hok] at herr
          exact absurd herr (by simp)
        | none => simp [auth_with_password, hs, hb']
      · by_cases h4 : r'.status = 400
        · simp [auth_with_password, h4, status_is_success]
        · simp [auth_with_password, hs, h4]
  · intro hs hb
    simp [auth_refresh, hs, hb]
  · intro resp e herr
    cases resp with
    | none => rfl
    | some r' =>
      by_cases hs : r'.status = 200
      · cases hb' : r'.authBody with
        | some st =>
          have hok : auth_refresh pb (some r')
              = (.ok st, update_auth_store pb st) := by
            simp [auth_refresh, hs, hb']
          rw [hok] at herr
          exact absurd herr (by simp)
        | none => simp [auth_refresh, hs, hb']
      · by_cases h1 : r'.status = 401 <;> by_cases h3 : r'.status = 403 <;>
          by_cases h4 : r'.status = 404 <;> simp [auth_refresh, hs, h1, h3, h4]

/-- C6 witness: a concrete successful password authentication stores the
full parsed body as the session. -/
theorem auth_success_replaces_session_witness :
    auth_with_password { base_url := "http://x", auth_store := none }
        (some ⟨200, some ⟨⟨"id1", "c1", "users", "t1", "t2", "a@b.c", false, true⟩,
          "tok-123"⟩, none⟩)
      = (.ok ⟨⟨"id1", "c1", "users", "t1", "t2", "a@b.c", false, true⟩, "tok-123"⟩,
         update_auth_store { base_url := "http://x", auth_store := none }
           ⟨⟨"id1", "c1", "users", "t1", "t2", "a@b.c", false, true⟩, "tok-123"⟩) :=
  ((auth_success_replaces_session { base_url := "http://x", auth_store := none }
      ⟨200, some ⟨⟨"id1", "c1", "users", "t1", "t2", "a@b.c", false, true⟩,
        "tok-123"⟩, none⟩
      ⟨⟨"id1", "c1", "users", "t1", "t2", "a@b.c", false, true⟩, "tok-123"⟩
      ⟨"GET", "u", [], [], .empty⟩).1 rfl rfl).1

/-- C7: a successful impersonate call returns a brand-new client, built by
`PocketBase::new` from the caller's base URL, whose session is exactly the
impersonated auth response; the caller's client is returned unchanged in
every case (the builder only holds an immutable borrow of it). -/
theorem impersonate_returns_fresh_client
    (pb : PocketBase) (r : ImpersonateResponse) (store : AuthStore) :
    (∀ resp : Except String ImpersonateResponse,
      (impersonate_call pb resp).2 = pb) ∧
    (r.status = 200 → r.authBody = some store →
      impersonate_call pb (.ok r) =
        (.ok { base_url := trim_end_slashes pb.base_url,
               auth_store := some store }, pb)) := by
  constructor
  · intro resp
    rfl
  · intro hs hb
    simp [impersonate_call, impersonate_result, hs, hb, pocketbase_new,
      update_auth_store]

/-- C7 witness: a concrete impersonation yields a fresh authenticated
client and echoes the caller's client back untouched. -/
theorem impersonate_returns_fresh_client_witness :
    impersonate_call
        { base_url := "http://x",
          auth_store := some ⟨⟨"su", "c0", "_superusers", "t", "t", "s@u.p",
            false, true⟩, "super-token"⟩ }
        (.ok ⟨200, some ⟨⟨"id9", "c1", "users", "t1", "t2", "u@v.w", true,
          false⟩, "impersonated-token"⟩⟩)
      = (.ok { base_url := trim_end_slashes "http://x",
               auth_store := some ⟨⟨"id9", "c1", "users", "t1", "t2", "u@v.w",
                 true, false⟩, "impersonated-token"⟩ },
         { base_url := "http://x",
           auth_store := some ⟨⟨"su", "c0", "_superusers", "t", "t", "s@u.p",
             false, true⟩, "super-token"⟩ }) :=
  (impersonate_returns_fresh_client
      { base_url := "http://x",
        auth_store := some ⟨⟨"su", "c0", "_superusers", "t", "t", "s@u.p",
          false, true⟩, "super-token"⟩ }
      ⟨200, some ⟨⟨"id9", "c1", "users", "t1", "t2", "u@v.w", true, false⟩,
        "impersonated-token"⟩⟩
      ⟨⟨"id9", "c1", "users", "t1", "t2", "u@v.w", true, false⟩,
        "impersonated-token"⟩).2 rfl rfl

/-- Ceiling division splits off one full step when the remainder is
nonzero. -/
theorem ceil_div_of_not_dvd (N B : Nat) (hB : 1 ≤ B) (h : N % B ≠ 0) :
    (N + B - 1) / B = N / B + 1 := by
  have hmod := Nat.div_add_mod N B
  have hrB : N % B < B := Nat.mod_lt _ (by omega)
  have h1 : 1 ≤ N % B := Nat.one_le_iff_ne_zero.mpr h
  have hmul : B * (N / B + 1) = B * (N / B) + B := by ring
  have hkey : N + B - 1 = B * (N / B + 1) + (N % B - 1) := by omega
  rw [hkey, Nat.mul_add_div (by omega)]
  have h0 : (N % B - 1) / B = 0 := Nat.div_eq_of_lt (by omega)
  omega

/-- The pagination loop against a contract-abiding server: starting at page
`k + 1` with the first `k` chunks already consumed, sufficient fuel yields
all remaining records, requesting consecutive pages. -/
theorem get_full_list_loop_contract {T : Type} (records : List T) (B : Nat)
    (server : Nat → PageOutcome T) (hB : 1 ≤ B)
    (hs : serves_contract server records B) :
    ∀ (fuel k : Nat) (acc : List T) (trace : List Nat),
      (records.length - k * B) / B + 1 ≤ fuel →
      get_full_list_loop B server fuel (k + 1) acc trace =
        some (trace ++ List.range' (k + 1) ((records.length - k * B) / B + 1),
          .ok (acc ++ records.drop (k * B))) := by
  intro fuel
  induction fuel with
  | zero => intro k acc trace hf; exact absurd hf (Nat.not_succ_le_zero _)
  | succ n ih =>
    intro k acc trace hf
    obtain ⟨body, hbody, hitems⟩ := hs (k + 1) (by omega)
    have hcp : contract_page records B (k + 1) = (records.drop (k * B)).take B := by
      simp [contract_page]
    have hlen : body.items.length = min B (records.length - k * B) := by
      rw [hitems, hcp]
      simp [List.length_take, List.length_drop]
    by_cases hshort : records.length - k * B < B
    · have hlt : body.items.length < B := by omega
      have hdiv : (records.length - k * B) / B = 0 := Nat.div_eq_of_lt hshort
      have hall : body.items = records.drop (k * B) := by
        rw [hitems, hcp]
        apply List.take_of_length_le
        rw [List.length_drop]
        omega
      simp only [get_full_list_loop, hbody]
      rw [if_pos hlt, hall, hdiv]
      simp [List.range'_one]
    · have hge : B ≤ records.length - k * B := by omega
      have hnot : ¬ body.items.length < B := by omega
      have hdivstep : (records.length - k * B) / B
          = (records.length - (k + 1) * B) / B + 1 := by
        have hsub : records.length - (k + 1) * B
            = (records.length - k * B) - B := by
          have hm : (k + 1) * B = k * B + B := by ring
          omega
        rw [hsub]
        exact Nat.div_eq_sub_div (by omega) hge
      have hf' : (records.length - (k + 1) * B) / B + 1 ≤ n := by omega
      have hrec := ih (k + 1) (acc ++ body.items) (trace ++ [k + 1]) hf'
      simp only [get_full_list_loop, hbody]
      rw [if_neg hnot, hrec]
      have htr : (trace ++ [k + 1])
            ++ List.range' (k + 1 + 1) ((records.length - (k + 1) * B) / B + 1)
          = trace ++ List.range' (k + 1) ((records.length - k * B) / B + 1) := by
        rw [hdivstep]
        nth_rewrite 2 [List.range'_succ]
        simp
      have hac : (acc ++ body.items) ++ records.drop ((k + 1) * B)
          = acc ++ records.drop (k * B) := by
        have hdd : records.drop ((k + 1) * B) = (records.drop (k * B)).drop B := by
          rw [List.drop_drop]
          congr 1
          ring
        rw [hdd, hitems, hcp, List.append_assoc, List.take_append_drop]
      rw [htr, hac]

/-- C1: against any server holding exactly `N = records.length` records and
answering every list request per the list contract, the full-list loop
requests pages 1, 2, 3, ... consecutively, stops at the first page with
fewer than `B` items, issues `ceil(N/B) + 1` requests when `B` divides `N`
(one trailing empty page) and `ceil(N/B)` otherwise, and returns all `N`
records in page order. -/
theorem get_full_list_pagination (T : Type) (records : List T) (B fuel : Nat)
    (server : Nat → PageOutcome T) (hB : 1 ≤ B)
    (hs : serves_contract server records B)
    (hf : records.length / B + 1 ≤ fuel) :
    get_full_list_loop B server fuel 1 [] [] =
      some (List.range' 1
          (if records.length % B = 0 then records.length / B + 1
           else (records.length + B - 1) / B),
        .ok records) := by
  have hcount : (if records.length % B = 0 then records.length / B + 1
      else (records.length + B - 1) / B) = records.length / B + 1 := by
    by_cases hm : records.length % B = 0
    · rw [if_pos hm]
    · rw [if_neg hm, ceil_div_of_not_dvd _ _ hB hm]
  rw [hcount]
  have h0 := get_full_list_loop_contract records B server hB hs fuel 0 [] []
    (by simpa using hf)
  simpa using h0

/-- C1 witness: three records fetched with batch size 2 take exactly
`ceil(3/2) = 2` requests, pages 1 and 2, and return all records in order. -/
theorem get_full_list_pagination_witness :
    get_full_list_loop 2
        (fun p => PageOutcome.ok ⟨Int.ofNat p, 2, -1, -1,
          contract_page [10, 20, 30] 2 p⟩) 2 1 [] [] =
      some (List.range' 1
          (if ([10, 20, 30] : List Nat).length % 2 = 0 then
            ([10, 20, 30] : List Nat).length / 2 + 1
           else (([10, 20, 30] : List Nat).length + 2 - 1) / 2),
        .ok [10, 20, 30]) :=
  get_full_list_pagination Nat [10, 20, 30] 2 2
    (fun p => PageOutcome.ok ⟨Int.ofNat p, 2, -1, -1,
      contract_page [10, 20, 30] 2 p⟩)
    (by decide) (fun p hp => ⟨_, rfl, rfl⟩) (by decide)

/-- C9: `batch_size(0)` stores a batch size of 0, for which the loop's sole
exit test (`items_count < batch_size`) is unsatisfiable — under any
all-successful response sequence the loop returns for no amount of fuel —
while for every batch size `B ≥ 1` the loop is total, returning by the
first page that yields fewer than `B` items. -/
theorem batch_size_zero_never_terminates (T : Type) :
    batch_size_set 0 = 0 ∧
    (∀ server : Nat → PageOutcome T, (∀ p, (server p).isOk = true) →
      ∀ fuel page acc trace,
        get_full_list_loop 0 server fuel page acc trace = none) ∧
    (∀ (B : Nat) (server : Nat → PageOutcome T), 1 ≤ B →
      ∀ fuel page acc trace,
        (∃ q, page ≤ q ∧ q < page + fuel ∧ page_items_len server q < B) →
        (get_full_list_loop B server fuel page acc trace).isSome = true) := by
  refine ⟨rfl, ?_, ?_⟩
  · intro server hok fuel
    induction fuel with
    | zero => intro page acc trace; rfl
    | succ n ih =>
      intro page acc trace
      have h := hok page
      cases hsp : server page with
      | ok body =>
        simp only [get_full_list_loop, hsp]
        rw [if_neg (by omega)]
        exact ih (page + 1) _ _
      | parseFail m => rw [hsp] at h; simp [PageOutcome.isOk] at h
      | httpErr s => rw [hsp] at h; simp [PageOutcome.isOk] at h
      | sendErr a b => rw [hsp] at h; simp [PageOutcome.isOk] at h
  · intro B server hB fuel
    induction fuel with
    | zero =>
      intro page acc trace hex
      obtain ⟨q, h1, h2, _⟩ := hex
      exact absurd h2 (by omega)
    | succ n ih =>
      intro page acc trace hex
      cases hsp : server page with
      | ok body =>
        by_cases hlt : body.items.length < B
        · simp [get_full_list_loop, hsp, hlt]
        · simp only [get_full_list_loop, hsp]
          rw [if_neg hlt]
          apply ih (page + 1)
          obtain ⟨q, h1, h2, h3⟩ := hex
          have hpl : page_items_len server page = body.items.length := by
            simp [page_items_len, hsp]
          have hq : q ≠ page := by
            intro hqe
            rw [hqe, hpl] at h3
            omega
          exact ⟨q, by omega, by omega, h3⟩
      | parseFail m => simp [get_full_list_loop, hsp]
      | httpErr s => simp [get_full_list_loop, hsp]
      | sendErr a b => simp [get_full_list_loop, hsp]

/-- C9 witness: with batch size 0 an always-successful server starves the
loop of any exit for arbitrary fuel, while batch size 1 terminates on the
first short page. -/
theorem batch_size_zero_never_terminates_witness :
    get_full_list_loop 0
        (fun _ => PageOutcome.ok ⟨1, 0, -1, -1, ([] : List Nat)⟩) 5 1 [] []
      = none ∧
    (get_full_list_loop 1
        (fun _ => PageOutcome.ok ⟨1, 0, -1, -1, ([] : List Nat)⟩) 1 1 [] []).isSome
      = true :=
  ⟨(batch_size_zero_never_terminates Nat).2.1
      (fun _ => PageOutcome.ok ⟨1, 0, -1, -1, ([] : List Nat)⟩)
      (fun p => rfl) 5 1 [] [],
   (batch_size_zero_never_terminates Nat).2.2 1
      (fun _ => PageOutcome.ok ⟨1, 0, -1, -1, ([] : List Nat)⟩)
      (by decide) 1 1 [] [] ⟨1, by decide, by decide, by decide⟩⟩
